import Mathlib

/-!
Shallow embedding of `src/app.js` (the `StoriesApp` controller of the
stories-blogs repository): theme management (`initializeTheme`,
`toggleTheme`, `setTheme`), genre filtering (`filterStories` and its
timer-driven show/hide animation), the story registry (`loadStoryData`),
and the accessibility status message, together with proofs of the
specification's claims about them.

JavaScript string primitives used by the source (`toLowerCase`,
`split(' ')`, the `||` default idiom) are embedded explicitly below so
that every step of `filterStories` can be traced against the source.
-/

namespace StoriesApp

/-- Embedding of JavaScript `s.toLowerCase()` restricted to basic latin
letters (`Char.toLower` lowers exactly the ASCII range, which covers every
genre tag and filter string appearing in the claims). -/
def jsToLower (s : String) : String :=
  ⟨s.data.map Char.toLower⟩

/-- Character-level splitting on a single space, embedding JavaScript
`s.split(' ')`: adjacent separators and leading/trailing separators
produce empty fragments, and the empty string yields one empty fragment. -/
def splitChars : List Char → List (List Char)
  | [] => [[]]
  | c :: rest =>
    if c = ' ' then [] :: splitChars rest
    else
      match splitChars rest with
      | [] => [[c]]
      | t :: ts => (c :: t) :: ts

/-- Embedding of JavaScript `s.split(' ')` as a list of strings. -/
def jsSplitOnSpace (s : String) : List String :=
  (splitChars s.data).map (fun l => ⟨l⟩)

/-- A decidable test for an ASCII uppercase letter (code point 65..90). -/
def isAsciiUpper (c : Char) : Bool :=
  decide (65 ≤ c.toNat) && decide (c.toNat ≤ 90)

/-- A story card as `filterStories` sees it: its `data-genres` attribute
string and whether it currently carries the `hidden` class. -/
structure Card where
  genres : String
  hidden : Bool
deriving DecidableEq

/-- The `shouldShow` test of `filterStories` (src/app.js lines 130-131):
`genre === 'all' || card.dataset.genres.toLowerCase().split(' ').some(g => g === genre)`.
The card's genre string is lowercased; the selected genre is compared verbatim. -/
def matchesFilter (genre : String) (c : Card) : Bool :=
  genre == "all" || (jsSplitOnSpace (jsToLower c.genres)).any (fun t => t == genre)

/-- The settled effect of `filterStories` on one card once its show/hide
timers have fired (src/app.js lines 133-147): the `hidden` class is removed
when `shouldShow` holds and added otherwise. -/
def settleCard (genre : String) (c : Card) : Card :=
  { c with hidden := !(matchesFilter genre c) }

/-- The settled effect of `filterStories(genre)` on the whole card list. -/
def applyFilter (genre : String) (cards : List Card) : List Card :=
  cards.map (settleCard genre)

/-- The genre tags of a card as the Item Registry records them
(src/app.js line 165): `card.dataset.genres.split(' ')`, with no lowercasing. -/
def registryTags (c : Card) : List String :=
  jsSplitOnSpace c.genres

/-- Visibility rule as the specification amends it: the filter is `"all"`
or is one of the tokens of the lowercased genres attribute. -/
def specVisibleAmended (F : String) (c : Card) : Prop :=
  F = "all" ∨ F ∈ jsSplitOnSpace (jsToLower c.genres)

/-- Number of visible cards, embedding
`document.querySelectorAll('.story-card:not(.hidden)').length` (src/app.js line 427). -/
def countVisible (cards : List Card) : Nat :=
  (cards.filter (fun c => !c.hidden)).length

/-- The accessibility live-region text written on `filterChanged`
(src/app.js line 430): `Showing ${visibleCount} stories for ${genre} filter`. -/
def statusMessage (genre : String) (cards : List Card) : String :=
  "Showing " ++ toString (countVisible cards) ++ " stories for " ++ genre ++ " filter"

/-! Auxiliary lemmas about the string embedding. -/

theorem splitChars_ne_nil (cs : List Char) : splitChars cs ≠ [] := by
  cases cs with
  | nil => simp [splitChars]
  | cons c rest =>
    simp only [splitChars]
    by_cases h : c = ' '
    · simp [h]
    · simp only [if_neg h]
      cases splitChars rest <;> simp

theorem mem_splitChars (cs : List Char) :
    ∀ l ∈ splitChars cs, ∀ a ∈ l, a ∈ cs := by
  induction cs with
  | nil =>
    intro l hl a ha
    simp [splitChars] at hl
    subst hl
    simp at ha
  | cons c rest ih =>
    intro l hl a ha
    simp only [splitChars] at hl
    by_cases h : c = ' '
    · rw [if_pos h] at hl
      rcases List.mem_cons.1 hl with h1 | h1
      · subst h1; simp at ha
      · exact List.mem_cons_of_mem c (ih l h1 a ha)
    · rw [if_neg h] at hl
      rcases heq : splitChars rest with _ | ⟨t, ts⟩
      · exact absurd heq (splitChars_ne_nil rest)
      · rw [heq] at hl
        rcases List.mem_cons.1 hl with h1 | h1
        · subst h1
          rcases List.mem_cons.1 ha with h2 | h2
          · exact h2 ▸ List.mem_cons_self c rest
          · have : t ∈ splitChars rest := heq ▸ List.mem_cons_self t ts
            exact List.mem_cons_of_mem c (ih t this a h2)
        · have : l ∈ splitChars rest := heq ▸ List.mem_cons_of_mem t h1
          exact List.mem_cons_of_mem c (ih l this a ha)

theorem char_toNat_ofNat (n : Nat) (h : n.isValidChar) : (Char.ofNat n).toNat = n := by
  rw [Char.ofNat, dif_pos h]
  rfl

theorem isAsciiUpper_toLower (c : Char) : isAsciiUpper (Char.toLower c) = false := by
  unfold Char.toLower
  by_cases h : c.toNat ≥ 65 ∧ c.toNat ≤ 90
  · rw [if_pos h]
    have hv : Nat.isValidChar (c.toNat + 32) := Or.inl (by omega)
    simp only [isAsciiUpper, char_toNat_ofNat _ hv]
    simp only [Bool.and_eq_false_iff, decide_eq_false_iff_not]
    omega
  · rw [if_neg h]
    simp only [isAsciiUpper, Bool.and_eq_false_iff, decide_eq_false_iff_not]
    omega

theorem matchesFilter_eq_true_iff (genre : String) (c : Card) :
    matchesFilter genre c = true ↔ specVisibleAmended genre c := by
  simp [matchesFilter, specVisibleAmended, List.any_eq_true, beq_iff_eq]

end StoriesApp

namespace StoriesApp

/-! Timer-driven animation model for `filterStories` (src/app.js lines
128-148). Each call schedules, per card, either a delayed removal of the
`hidden` class (at `index * 100` ms for matching cards) or a delayed
addition of it (at `300` ms for non-matching cards). No callback checks
whether the filter it was scheduled under is still current. Timers are
executed in order of their due time, earlier-scheduled first on ties. -/

/-- A pending timer callback of `filterStories`: remove the `hidden` class
from card `i` (show branch, lines 135-139) or add it (hide branch, lines
144-146). -/
inductive FilterOp where
  | showCard (i : Nat)
  | hideCard (i : Nat)
deriving DecidableEq

/-- Set the `hidden` flag of the card at position `i`. -/
def setHidden : List Card → Nat → Bool → List Card
  | [], _, _ => []
  | c :: cs, 0, b => { c with hidden := b } :: cs
  | c :: cs, Nat.succ i, b => c :: setHidden cs i b

/-- Execute one fired timer callback. -/
def applyOp (cards : List Card) : FilterOp → List Card
  | FilterOp.showCard i => setHidden cards i false
  | FilterOp.hideCard i => setHidden cards i true

/-- The timers scheduled by one call `filterStories(genre)` issued at
absolute time `t` (milliseconds): card `i` gets a show callback at
`t + i * 100` when it matches, and a hide callback at `t + 300` otherwise. -/
def filterEvents (genre : String) (cards : List Card) (t : Nat) :
    List (Nat × FilterOp) :=
  cards.enum.map (fun p =>
    if matchesFilter genre p.2 then (t + p.1 * 100, FilterOp.showCard p.1)
    else (t + 300, FilterOp.hideCard p.1))

/-- Stable insertion of a pending timer into a queue sorted by due time:
an equal-time entry already in the queue that was scheduled earlier fires
first only if it precedes in the original list, which `sortEvents` preserves. -/
def insertEvent (e : Nat × FilterOp) : List (Nat × FilterOp) → List (Nat × FilterOp)
  | [] => [e]
  | x :: xs => if x.1 < e.1 then x :: insertEvent e xs else e :: x :: xs

/-- Stable sort of pending timers by due time. -/
def sortEvents : List (Nat × FilterOp) → List (Nat × FilterOp)
  | [] => []
  | x :: xs => insertEvent x (sortEvents xs)

/-- Run every pending timer to completion in due-time order, yielding the
settled card list. -/
def runEvents (cards : List Card) (events : List (Nat × FilterOp)) : List Card :=
  (sortEvents events).foldl (fun cs e => applyOp cs e.2) cards

end StoriesApp

namespace StoriesApp

/-! Theme management model (src/app.js lines 36-85). The browser's
`localStorage` is not part of this repository; following the
specification's Preference Store contract it is embedded as an optional
key-value map, `none` meaning storage is unavailable. -/

/-- Modelled from the spec: the Preference Store (the browser's
`localStorage`, external to this repository). `none` is the unavailable
store; an available store is a key-value association list. Per the spec's
failure contract, `get` on an unavailable store returns absent and `set`
is a no-op. -/
abbrev Store := Option (List (String × String))

/-- Preference Store read, embedding `localStorage.getItem(key)`. -/
def storeGet (st : Store) (key : String) : Option String :=
  match st with
  | none => none
  | some kvs => kvs.lookup key

/-- Preference Store write, embedding `localStorage.setItem(key, value)`.
On an available store the new binding shadows any earlier one. -/
def storeSet (st : Store) (key value : String) : Store :=
  match st with
  | none => none
  | some kvs => some ((key, value) :: kvs)

/-- The JavaScript `a || b` default idiom on a nullable string: `null`
(absent) and the empty string are falsy and select the fallback. -/
def jsOrString (o : Option String) (fallback : String) : String :=
  match o with
  | none => fallback
  | some s => if s == "" then fallback else s

/-- Document-wide theme state: the `data-theme` attribute of the document
(`documentElement` and `body` are always set together by `setTheme`, so one
field models both) and the Preference Store. -/
structure ThemeState where
  dataTheme : Option String
  store : Store
deriving DecidableEq

/-- Embedding of `setTheme(theme)` (src/app.js lines 70-72): writes the
`data-theme` attribute. The aria-label update and the `themeChanged` event
carry the same value and add no state. -/
def setTheme (s : ThemeState) (theme : String) : ThemeState :=
  { s with dataTheme := some theme }

/-- Embedding of `initializeTheme` (src/app.js lines 36-42): read the
saved theme, compute the system preference from the
`prefers-color-scheme: dark` media query, default with `||`, and apply.
No Preference Store write happens here. -/
def initializeTheme (s : ThemeState) (systemDark : Bool) : ThemeState :=
  let savedTheme := storeGet s.store "stories-theme"
  let systemPreference := if systemDark then "dark" else "light"
  let initialTheme := jsOrString savedTheme systemPreference
  setTheme s initialTheme

/-- Embedding of `toggleTheme` (src/app.js lines 53-59): the current theme
is re-read from the document's `data-theme` attribute with `|| 'light'`,
flipped, applied, and saved to the Preference Store. -/
def toggleTheme (s : ThemeState) : ThemeState :=
  let currentTheme := jsOrString s.dataTheme "light"
  let newTheme := if currentTheme == "light" then "dark" else "light"
  let applied := setTheme s newTheme
  { applied with store := storeSet applied.store "stories-theme" newTheme }

end StoriesApp

namespace StoriesApp

/-! Item Registry model (`loadStoryData`, src/app.js lines 160-172). -/

/-- A story card as rendered in the document: each field is `none` when the
corresponding attribute or nested element is missing. Reading a missing
`dataset` entry yields `undefined` without error, but calling `.split` on
it, or `.textContent` on a failed `querySelector`, throws. -/
structure DomCard where
  id : Option String
  genresAttr : Option String
  title : Option String
  synopsis : Option String
deriving DecidableEq

/-- A loaded story record (src/app.js lines 163-169). The `id` stays
optional because a missing `data-id` is stored as `undefined` untouched. -/
structure Story where
  id : Option String
  genres : List String
  title : String
  synopsis : String
deriving DecidableEq

/-- Loading of one card (the body of the `map` at src/app.js lines
163-169): `card.dataset.genres.split(' ')` throws when the attribute is
missing, as do the `.textContent` reads for title and synopsis; a throw is
modelled as `none`. No field is validated beyond that, and `genres` may
come out as `[""]` for an empty attribute. -/
def loadStory (c : DomCard) : Option Story :=
  match c.genresAttr, c.title, c.synopsis with
  | some g, some t, some s => some ⟨c.id, jsSplitOnSpace g, t, s⟩
  | _, _, _ => none

/-- Embedding of `loadStoryData` (src/app.js lines 160-172): a plain `map`
over all cards; an exception thrown while loading any card aborts the whole
load (modelled as `none`). There is no skipping and no warning. -/
def loadStoryData : List DomCard → Option (List Story)
  | [] => some []
  | c :: cs =>
    match loadStory c, loadStoryData cs with
    | some s, some ss => some (s :: ss)
    | _, _ => none

/-- A card loads successfully exactly when its genres attribute, title and
synopsis are all present; `data-id` is never required. -/
theorem loadStory_isSome_iff (c : DomCard) :
    (loadStory c).isSome = true ↔
      (c.genresAttr.isSome = true ∧ c.title.isSome = true ∧ c.synopsis.isSome = true) := by
  cases hg : c.genresAttr <;> cases ht : c.title <;> cases hs : c.synopsis <;>
    simp [loadStory, hg, ht, hs]

end StoriesApp

namespace StoriesApp

/-! The settled timed model agrees with the per-card settled semantics when
a single `filterStories` call runs with no overlapping call: a concrete
two-card check tying `runEvents` to `applyFilter`. -/

theorem runEvents_single_call_example :
    runEvents [Card.mk "horror comedy" true, Card.mk "drama" false]
      (filterEvents "comedy" [Card.mk "horror comedy" true, Card.mk "drama" false] 0)
    = applyFilter "comedy" [Card.mk "horror comedy" true, Card.mk "drama" false] := by
  decide

/-- Claim C1, counterexample: take one card whose `data-genres` attribute is
`"Horror"` and select the filter `"horror"`. After `filterStories("horror")`
settles the card is visible (the `hidden` class removed), yet `"horror"` is
neither `"all"` nor a member of the item's genre tags as the Item Registry
records them (`["Horror"]`), so visibility is not equivalent to
`F = "all" ∨ F ∈ I.genres`. -/
theorem claim1_counterexample :
    applyFilter "horror" [Card.mk "Horror" true] = [Card.mk "Horror" false] ∧
    ¬("horror" = "all" ∨ "horror" ∈ registryTags (Card.mk "Horror" true)) := by
  decide

/-- Claim C1 (amended): for every item and every filter, after
`selectFilter(F)` (`filterStories`) settles, the item is visible iff
`F = "all"` or `F` is a member of the tokens of the item's lowercased
genres attribute (the comparison lowercases the item side only). -/
theorem claim1_visible_iff_lowercased (genre : String) (cards : List Card) :
    ∀ c ∈ applyFilter genre cards, (c.hidden = false ↔ specVisibleAmended genre c) := by
  intro c hc
  rcases List.mem_map.1 hc with ⟨c0, _, rfl⟩
  have h := matchesFilter_eq_true_iff genre c0
  have hb : (!(matchesFilter genre c0)) = false ↔ matchesFilter genre c0 = true := by
    cases matchesFilter genre c0 <;> simp
  exact hb.trans h

/-- Witness for C1 (amended) at a concrete input: one card with genres
attribute `"Horror"` under filter `"horror"`. -/
theorem claim1_visible_iff_lowercased_witness :
    (Card.mk "Horror" false).hidden = false ↔
      specVisibleAmended "horror" (Card.mk "Horror" false) :=
  claim1_visible_iff_lowercased "horror" [Card.mk "Horror" true]
    (Card.mk "Horror" false) (by decide)

/-- Claim C2: the code carries no guard against stale timers. One card with
genres `"comedy"`, initially visible; `filterStories("horror")` runs at
t = 0 ms and schedules a hide for t = 300 ms; `filterStories("comedy")`
runs at t = 100 ms and schedules a show for t = 100 ms. The card matches
the latest filter, yet after every timer fires the stale hide (fired last,
at 300 ms) leaves the card hidden: the settled state does not reflect the
latest filter. -/
theorem claim2_stale_hide_wins :
    matchesFilter "comedy" (Card.mk "comedy" false) = true ∧
    runEvents [Card.mk "comedy" false]
      (filterEvents "horror" [Card.mk "comedy" false] 0 ++
        filterEvents "comedy" [Card.mk "comedy" false] 100) =
      [Card.mk "comedy" true] := by
  decide

/-- Claim C3: with the Preference Store unavailable (`none`), `get` behaves
as absent, `set` is a no-op, `initializeTheme` resolves to the system
color-scheme preference and leaves the store untouched, and `toggleTheme`'s
store write is a no-op; every operation is total, so nothing fails. -/
theorem claim3_storage_unavailable_degrades (key value : String)
    (dt : Option String) (systemDark : Bool) :
    storeGet (none : Store) key = none ∧
    storeSet (none : Store) key value = none ∧
    (initializeTheme ⟨dt, none⟩ systemDark).dataTheme =
      some (if systemDark then "dark" else "light") ∧
    (initializeTheme ⟨dt, none⟩ systemDark).store = none ∧
    (toggleTheme ⟨dt, none⟩).store = none :=
  ⟨rfl, rfl, rfl, rfl, rfl⟩

/-- Claim C4, counterexample: a document with one well-formed card followed
by a card whose genres attribute is missing makes `loadStoryData` abort the
whole load (it returns nothing, instead of skipping the bad card and
returning the well-formed story); and a card with an empty genres attribute
is not skipped but loaded with the single empty tag `""`. -/
theorem claim4_counterexample :
    loadStoryData [⟨some "1", some "horror", some "T", some "S"⟩,
      ⟨some "2", none, some "U", some "V"⟩] = none ∧
    loadStoryData [⟨some "3", some "", some "T2", some "S2"⟩] =
      some [⟨some "3", [""], "T2", "S2"⟩] :=
  ⟨rfl, rfl⟩

/-- Claim C4 (amended): `loadStoryData` performs no per-item validation and
never skips: the load succeeds — returning exactly one story per card — iff
every card has its genres attribute, title and synopsis present; a single
card missing one of them aborts the whole load, and an empty genres
attribute is accepted (yielding the tag list `[""]`). -/
theorem claim4_load_all_or_nothing (cards : List DomCard) :
    (∃ stories, loadStoryData cards = some stories ∧
      stories.length = cards.length) ↔
    ∀ c ∈ cards, c.genresAttr.isSome = true ∧ c.title.isSome = true ∧
      c.synopsis.isSome = true := by
  induction cards with
  | nil =>
    constructor
    · intro _ c hc
      simp at hc
    · intro _
      exact ⟨[], rfl, rfl⟩
  | cons c cs ih =>
    cases hc : loadStory c with
    | none =>
      have hload : loadStoryData (c :: cs) = none := by
        simp [loadStoryData, hc]
      constructor
      · rintro ⟨stories, hl, _⟩
        rw [hload] at hl
        exact absurd hl (by simp)
      · intro hwf
        have hsome := (loadStory_isSome_iff c).2 (hwf c (List.mem_cons_self c cs))
        rw [hc] at hsome
        simp at hsome
    | some s =>
      cases hcs : loadStoryData cs with
      | none =>
        have hload : loadStoryData (c :: cs) = none := by
          simp [loadStoryData, hc, hcs]
        constructor
        · rintro ⟨stories, hl, _⟩
          rw [hload] at hl
          exact absurd hl (by simp)
        · intro hwf
          obtain ⟨ss, hss, _⟩ :=
            ih.2 (fun x hx => hwf x (List.mem_cons_of_mem c hx))
          rw [hcs] at hss
          exact absurd hss (by simp)
      | some ss =>
        have hload : loadStoryData (c :: cs) = some (s :: ss) := by
          simp [loadStoryData, hc, hcs]
        constructor
        · rintro ⟨stories, hl, hlen⟩
          intro x hx
          rcases List.mem_cons.1 hx with rfl | hx2
          · exact (loadStory_isSome_iff x).1 (by rw [hc]; rfl)
          · rw [hload] at hl
            have hst : stories = s :: ss := (Option.some.inj hl).symm
            subst hst
            have hlen2 : ss.length = cs.length := by simpa using hlen
            exact ih.1 ⟨ss, hcs, hlen2⟩ x hx2
        · intro hwf
          refine ⟨s :: ss, hload, ?_⟩
          obtain ⟨ss2, hss2, hlen2⟩ :=
            ih.2 (fun x hx => hwf x (List.mem_cons_of_mem c hx))
          rw [hcs] at hss2
          have : ss = ss2 := Option.some.inj hss2
          subst this
          simpa using hlen2

/-- Claim C5: starting from a document theme in {light, dark} with an
available Preference Store, two `toggleTheme` calls restore the document
theme to its original value, and the store then holds exactly the value the
second call wrote (which is that original value). -/
theorem claim5_toggle_twice (t : String) (kvs : List (String × String))
    (h : t = "light" ∨ t = "dark") :
    (toggleTheme (toggleTheme ⟨some t, some kvs⟩)).dataTheme = some t ∧
    storeGet (toggleTheme (toggleTheme ⟨some t, some kvs⟩)).store
      "stories-theme" = some t := by
  rcases h with rfl | rfl
  · exact ⟨rfl, rfl⟩
  · exact ⟨rfl, rfl⟩

/-- Witness for C5 at a concrete input: start from `"light"` with an empty
available store. -/
theorem claim5_toggle_twice_witness :
    (toggleTheme (toggleTheme ⟨some "light", some []⟩)).dataTheme =
      some "light" ∧
    storeGet (toggleTheme (toggleTheme ⟨some "light", some []⟩)).store
      "stories-theme" = some "light" :=
  claim5_toggle_twice "light" [] (Or.inl rfl)

/-- Claim C6: `initializeTheme` resolves with precedence stored preference
over system preference over the default: with no saved theme the resolved
theme equals the system color-scheme signal at call time (`dark` when the
`prefers-color-scheme: dark` query matches, else `light`), and a non-empty
saved theme wins over the system signal. -/
theorem claim6_initialize_precedence (s : ThemeState) (systemDark : Bool) :
    (storeGet s.store "stories-theme" = none →
      (initializeTheme s systemDark).dataTheme =
        some (if systemDark then "dark" else "light")) ∧
    (∀ t, storeGet s.store "stories-theme" = some t → t ≠ "" →
      (initializeTheme s systemDark).dataTheme = some t) := by
  constructor
  · intro h
    show (setTheme s (jsOrString (storeGet s.store "stories-theme")
      (if systemDark then "dark" else "light"))).dataTheme = _
    rw [h]
    rfl
  · intro t h hne
    show (setTheme s (jsOrString (storeGet s.store "stories-theme")
      (if systemDark then "dark" else "light"))).dataTheme = _
    rw [h]
    show some (jsOrString (some t) (if systemDark then "dark" else "light")) = some t
    simp [jsOrString, hne]

/-- Witness for C6 at concrete inputs: an empty store resolves to the
system signal (dark), and a stored `"light"` beats a dark system signal. -/
theorem claim6_initialize_precedence_witness :
    (initializeTheme ⟨none, some []⟩ true).dataTheme = some "dark" ∧
    (initializeTheme ⟨none, some [("stories-theme", "light")]⟩ true).dataTheme =
      some "light" :=
  ⟨(claim6_initialize_precedence ⟨none, some []⟩ true).1 rfl,
    (claim6_initialize_precedence ⟨none, some [("stories-theme", "light")]⟩
      true).2 "light" rfl (by decide)⟩

/-- Claim C7: selecting the same filter twice in a row settles to exactly
the card states of a single call — `filterStories` is idempotent, since the
per-card decision reads only the immutable genres attribute. -/
theorem claim7_filter_idempotent (genre : String) (cards : List Card) :
    applyFilter genre (applyFilter genre cards) = applyFilter genre cards := by
  unfold applyFilter
  rw [List.map_map]
  congr 1

/-- Claim C8: when no card matches the selected genre, the settled visible
set is empty (every card hidden, visible count 0) and the accessibility
live region reads `Showing 0 stories for <genre> filter`; nothing errors. -/
theorem claim8_zero_matches (genre : String) (cards : List Card)
    (h : ∀ c ∈ cards, matchesFilter genre c = false) :
    countVisible (applyFilter genre cards) = 0 ∧
    (∀ c ∈ applyFilter genre cards, c.hidden = true) ∧
    statusMessage genre (applyFilter genre cards) =
      "Showing 0 stories for " ++ genre ++ " filter" := by
  have hall : ∀ c ∈ applyFilter genre cards, c.hidden = true := by
    intro c hc
    rcases List.mem_map.1 hc with ⟨c0, hc0, rfl⟩
    show (!(matchesFilter genre c0)) = true
    rw [h c0 hc0]
    rfl
  have hcount : countVisible (applyFilter genre cards) = 0 := by
    unfold countVisible
    rw [List.length_eq_zero, List.filter_eq_nil_iff]
    intro c hc
    simp [hall c hc]
  refine ⟨hcount, hall, ?_⟩
  unfold statusMessage
  rw [hcount]
  have h0 : ("Showing " ++ toString (0 : Nat) ++ " stories for " : String) =
      "Showing 0 stories for " := by decide
  rw [h0]

/-- Witness for C8 at a concrete input: a lone horror card under the
unmatched genre `"scifi"`. -/
theorem claim8_zero_matches_witness :
    countVisible (applyFilter "scifi" [Card.mk "horror" false]) = 0 ∧
    statusMessage "scifi" (applyFilter "scifi" [Card.mk "horror" false]) =
      "Showing 0 stories for scifi filter" := by
  have h := claim8_zero_matches "scifi" [Card.mk "horror" false] (by decide)
  exact ⟨h.1, h.2.2.trans (by decide)⟩

/-- Claim C9: genre matching is case-asymmetric — the card side is
lowercased, the filter side is not — so any filter other than `"all"`
containing an ASCII uppercase letter matches no card at all, and every card
settles hidden, even a card whose genres attribute holds that very string. -/
theorem claim9_uppercase_filter_hides_all (genre : String) (cards : List Card)
    (hup : ∃ ch ∈ genre.data, isAsciiUpper ch = true) (hall : genre ≠ "all") :
    ∀ c ∈ applyFilter genre cards, c.hidden = true := by
  intro c hc
  rcases List.mem_map.1 hc with ⟨c0, _, rfl⟩
  show (!(matchesFilter genre c0)) = true
  have hm : matchesFilter genre c0 = false := by
    unfold matchesFilter
    rw [Bool.or_eq_false_iff]
    refine ⟨beq_eq_false_iff_ne.mpr hall, ?_⟩
    rw [List.any_eq_false]
    intro tok htok
    intro heq
    have heq2 : tok = genre := by simpa using heq
    rcases List.mem_map.1 htok with ⟨l, hl, hlk⟩
    obtain ⟨ch, hch, hchup⟩ := hup
    have hgd : genre.data = l := by rw [← heq2, ← hlk]
    rw [hgd] at hch
    have hmem : ch ∈ (jsToLower c0.genres).data :=
      mem_splitChars (jsToLower c0.genres).data l hl ch hch
    have hmem2 : ch ∈ c0.genres.data.map Char.toLower := hmem
    rcases List.mem_map.1 hmem2 with ⟨a, _, rfl⟩
    rw [isAsciiUpper_toLower] at hchup
    exact absurd hchup (by simp)
  rw [hm]
  rfl

/-- Witness for C9 at a concrete input: filter `"Horror"` hides a card
whose genres attribute is exactly `"Horror"`. -/
theorem claim9_uppercase_filter_hides_all_witness :
    (Card.mk "Horror" true).hidden = true :=
  claim9_uppercase_filter_hides_all "Horror" [Card.mk "Horror" false]
    (by decide) (by decide) (Card.mk "Horror" true) (by decide)

/-- Claim C10: `toggleTheme` derives the current theme from the document's
`data-theme` attribute (defaulting to `"light"` when absent), not from any
controller field, so on a document with no `data-theme` attribute the call
always yields `"dark"`, whatever the Preference Store holds. -/
theorem claim10_toggle_without_attribute_gives_dark (store : Store) :
    (toggleTheme ⟨none, store⟩).dataTheme = some "dark" :=
  rfl

end StoriesApp
